import Mathlib

/-!
Verification of the mcp-chat-wksp core against its natural-language
specification.  The definitions below are a shallow embedding of the
TypeScript sources:

* `MCPClient` / `MCPClientsManager` embed
  `apps/chat-api/src/lib/mcp-client.ts` and
  `apps/chat-api/src/lib/mcp-manager.ts` (state passed explicitly; the
  outcomes of external I/O — transport connects, tool transports,
  disconnects — are supplied as parameters).
* `chatPost` embeds the POST handler of
  `apps/chat-api/src/routes/chat.ts`.
* `GatewayMCPClient` state and operations embed
  `apps/mcp-chat-app/src/lib/ai/mcp/gateway-mcp-client.ts`.
* `chatRepository` operations embed
  the drizzle repository (createMessage / getMessagesByThreadId); the
  database engine itself is not part of the sources and is modelled from
  the spec as an append-only row list with a stable order-by.
* `selectServer` is modelled from the spec (the python gateway
  implementation is not among the sources; only its API documentation is).
-/

namespace McpChat

/-- Tool metadata discovered from a server
(mcp-client.ts, interface MCPToolInfo). -/
structure MCPToolInfo where
  name : String
  description : String
deriving DecidableEq, Repr

/-- State of one MCPClient (mcp-client.ts).  `hasClient` models whether
`this.client` is set, `connectError` whether `this.error` is recorded,
`generation` tags the construction of the underlying object so that
object identity can be tracked across state updates. -/
structure MCPClient where
  name : String
  hasClient : Bool
  isConnected : Bool
  connectError : Bool
  toolInfo : List MCPToolInfo
  generation : Nat
deriving DecidableEq, Repr

/-- MCPClient.isReady: `this.isConnected && !this.error`. -/
def MCPClient.isReady (c : MCPClient) : Bool :=
  c.isConnected && !c.connectError

/-- MCPClient.disconnect: closes the client if present and clears the
connected flag; the object itself survives. -/
def MCPClient.disconnect (c : MCPClient) : MCPClient :=
  { c with isConnected := false }

/-- Outcome of a call that either throws or returns a value
(exceptions modelled explicitly). -/
inductive CallOutcome (α : Type) where
  | thrown (msg : String)
  | ok (response : α)
deriving DecidableEq, Repr

/-- MCPClient.callTool (mcp-client.ts lines 109-125).  The transport
round trip is supplied as `transportResult`.  Returns the outcome and
whether a tool-call request was actually sent over the transport.
The source checks only `this.client` and `this.isConnected`; it never
consults `toolInfo`, and a transport error is rethrown after logging. -/
def MCPClient.callTool (c : MCPClient) (toolName : String)
    (transportResult : Except String String) : CallOutcome String × Bool :=
  if !(c.hasClient && c.isConnected) then
    (CallOutcome.thrown ("MCP client not connected: " ++ c.name), false)
  else
    match toolName, transportResult with
    | _, Except.ok content => (CallOutcome.ok content, true)
    | _, Except.error e => (CallOutcome.thrown e, true)

/-- Manager state (mcp-manager.ts, class MCPClientsManager).  `clients`
is the `Map<string, { client, name }>` in insertion order, keyed by the
server id alone.  `connectCount` counts every `client.connect()`
invocation ever issued, `nextGen` feeds `MCPClient.generation`.
`autoDisconnectSeconds` is the constructor parameter (default 1800). -/
structure ManagerState where
  clients : List (String × MCPClient)
  connectCount : Nat
  nextGen : Nat
  autoDisconnectSeconds : Nat
deriving DecidableEq, Repr

/-- The empty manager, as constructed (autoDisconnectSeconds 60 * 30). -/
def ManagerState.empty : ManagerState :=
  { clients := [], connectCount := 0, nextGen := 0
    autoDisconnectSeconds := 60 * 30 }

/-- JS `Map.prototype.get`: the value stored under a key. -/
def findEntry (l : List (String × MCPClient)) (id : String) : Option MCPClient :=
  match l with
  | [] => none
  | p :: rest => if p.1 = id then some p.2 else findEntry rest id

/-- JS `Map.prototype.set`: replace in place when the key exists,
append otherwise. -/
def setEntry (l : List (String × MCPClient)) (id : String) (c : MCPClient) :
    List (String × MCPClient) :=
  if (findEntry l id).isSome then
    l.map (fun p => if p.1 = id then (id, c) else p)
  else
    l ++ [(id, c)]

/-- Mutation of the client object referenced from the map (the map entry
itself is untouched; the object it points to changes). -/
def mutateEntry (l : List (String × MCPClient)) (id : String)
    (f : MCPClient → MCPClient) : List (String × MCPClient) :=
  l.map (fun p => if p.1 = id then (p.1, f p.2) else p)

/-- A fresh MCPClient after a connect attempt with outcome `ok`
(mcp-client.ts connect(): on success tools are loaded and
isConnected set; on failure the error is recorded). -/
def freshClient (name : String) (ok : Bool) (tools : List MCPToolInfo)
    (gen : Nat) : MCPClient :=
  { name := name, hasClient := true, isConnected := ok
    connectError := !ok, toolInfo := if ok then tools else []
    generation := gen }

/-- MCPClientsManager.addClient (mcp-manager.ts lines 148-165): if a
client already exists under `id` it is disconnected (but not removed);
a new client is constructed and connected; only on success is the map
entry replaced — on failure the call throws and the map is left with the
stale, disconnected entry. -/
def addClient (st : ManagerState) (id name : String) (connectOk : Bool)
    (tools : List MCPToolInfo) : ManagerState × Except String Unit :=
  let st1 :=
    match findEntry st.clients id with
    | some _ => { st with clients := mutateEntry st.clients id MCPClient.disconnect }
    | none => st
  let newClient := freshClient name connectOk tools st1.nextGen
  let st2 := { st1 with connectCount := st1.connectCount + 1
                        nextGen := st1.nextGen + 1 }
  if connectOk then
    ({ st2 with clients := setEntry st2.clients id newClient }, Except.ok ())
  else
    (st2, Except.error ("Failed to connect to MCP server: " ++ name))

/-- MCPClientsManager.getClient: a plain map lookup by server id. -/
def getClient (st : ManagerState) (id : String) : Option MCPClient :=
  findEntry st.clients id

/-- MCPClientsManager.cleanup (mcp-manager.ts lines 244-253): snapshot
the clients, clear the map, then `Promise.allSettled` over the
disconnects.  `disconnectOk` supplies each disconnect's outcome; with
allSettled every disconnect is issued and settles independently, so the
result list has one settled entry per owned client no matter which
outcomes are failures. -/
def cleanup (st : ManagerState) (disconnectOk : String → MCPClient → Bool) :
    ManagerState × List (String × Bool) :=
  ({ st with clients := [] },
   st.clients.map (fun p => (p.1, disconnectOk p.1 p.2)))

/-- GET /api/mcp/servers (routes/mcp.ts lines 8-12): the handler reads
the single shared manager from app.locals and returns
`getServerInfo()`; the authenticated identity is not consulted. -/
def serversFor (_identity : String) (st : ManagerState) : List String :=
  st.clients.map (fun p => p.2.name)

/-- Session lookup performed on behalf of an identity: the manager is a
single shared instance and its map is keyed by server id alone, so the
identity plays no part. -/
def getClientFor (_identity : String) (st : ManagerState) (id : String) :
    Option MCPClient :=
  getClient st id

/-- A demonstration pool state: one connected client stored under the
server id "browser" (as created while serving some request). -/
def demoPool : ManagerState :=
  (addClient ManagerState.empty "browser" "browser" true
    [{ name := "screenshot", description := "take a screenshot" }]).1

/-! Interleaving model for concurrent addClient calls.  Each `await` in
addClient is a yield point of the node event loop, so one addClient call
decomposes into atomic segments; a concurrent execution of two calls is
any merge of their segment lists. -/

/-- Atomic segments of addClient between its `await` points. -/
inductive PoolAction where
  | disconnectExisting (id : String)
  | connectAndSet (id name : String) (ok : Bool) (tools : List MCPToolInfo)
deriving DecidableEq, Repr

/-- The segment list of one addClient call. -/
def addClientProg (id name : String) (ok : Bool)
    (tools : List MCPToolInfo) : List PoolAction :=
  [PoolAction.disconnectExisting id, PoolAction.connectAndSet id name ok tools]

/-- Effect of one atomic segment on the manager state.
`connectAndSet` always issues a `connect()` (incrementing
`connectCount`) and installs the entry only on success, exactly as
addClient does. -/
def stepAction (st : ManagerState) : PoolAction → ManagerState
  | PoolAction.disconnectExisting id =>
    match findEntry st.clients id with
    | some _ => { st with clients := mutateEntry st.clients id MCPClient.disconnect }
    | none => st
  | PoolAction.connectAndSet id name ok tools =>
    let newClient := freshClient name ok tools st.nextGen
    let st2 := { st with connectCount := st.connectCount + 1
                         nextGen := st.nextGen + 1 }
    if ok then { st2 with clients := setEntry st2.clients id newClient }
    else st2

/-- Run a sequence of atomic segments. -/
def runActions (st : ManagerState) : List PoolAction → ManagerState
  | [] => st
  | a :: rest => runActions (stepAction st a) rest

/-- Number of connect invocations contained in a segment sequence. -/
def countConnects : List PoolAction → Nat
  | [] => 0
  | PoolAction.disconnectExisting _ :: rest => countConnects rest
  | PoolAction.connectAndSet _ _ _ _ :: rest => countConnects rest + 1

/-- An interleaving of two segment sequences (order within each call is
preserved; segments of the two calls may alternate arbitrarily). -/
inductive Merge : List PoolAction → List PoolAction → List PoolAction → Prop
  | nil : Merge [] [] []
  | left {a xs ys zs} : Merge xs ys zs → Merge (a :: xs) ys (a :: zs)
  | right {a xs ys zs} : Merge xs ys zs → Merge xs (a :: ys) (a :: zs)

/-! Embedding of the POST /api/chat handler (routes/chat.ts lines
23-118).  The handler calls streamText and persists messages only inside
the `onFinish` callback, which runs after a successful stream; the
surrounding try/catch returns a 500 response on failure without touching
the store. -/

/-- A persisted chat message row as written by the handler. -/
structure StoredMessage where
  threadId : String
  role : String
  content : String
deriving DecidableEq, Repr

/-- Result delivered by a successful streamText run. -/
structure ModelResult where
  text : String
deriving DecidableEq, Repr

/-- POST /api/chat: given the incoming message list, the optional
threadId and the outcome of the model stream, returns the resulting
store and the response.  On model failure the catch block answers with
an error and the store is untouched; on success `onFinish` appends the
last incoming message as the user turn and then the assistant turn,
both only when a threadId was supplied. -/
def chatPost (store : List StoredMessage) (threadId : Option String)
    (messages : List String) (modelOutcome : Except String ModelResult) :
    List StoredMessage × Except String String :=
  match modelOutcome with
  | Except.error _ => (store, Except.error "Failed to generate response")
  | Except.ok r =>
    let store1 :=
      match threadId with
      | some tid =>
        let afterUser :=
          match messages.getLast? with
          | some m => store ++ [{ threadId := tid, role := "user", content := m }]
          | none => store
        afterUser ++ [{ threadId := tid, role := "assistant", content := r.text }]
      | none => store
    (store1, Except.ok r.text)

/-! Embedding of GatewayMCPClient
(apps/mcp-chat-app/src/lib/ai/mcp/gateway-mcp-client.ts).  The debounced
auto-disconnect timer is modelled by the `timerArmed` flag; `timerFire`
is the debounce callback running after `autoDisconnectSeconds` of
inactivity. -/

/-- Observable state of a GatewayMCPClient.  `generation` tags object
construction: it changes only when a new client object is built, never
across connect/disconnect of the same object. -/
structure GatewayState where
  isConnected : Bool
  hasError : Bool
  timerArmed : Bool
  generation : Nat
deriving DecidableEq, Repr

/-- A freshly constructed GatewayMCPClient (constructor). -/
def GatewayState.fresh (gen : Nat) : GatewayState :=
  { isConnected := false, hasError := false, timerArmed := false
    generation := gen }

/-- GatewayMCPClient.connect: short-circuits when connected; otherwise
performs the gateway round trip (`connectOk`), and on success arms the
auto-disconnect debounce. -/
def gatewayConnect (st : GatewayState) (connectOk : Bool) : GatewayState :=
  if st.isConnected then st
  else if connectOk then
    { st with isConnected := true, hasError := false, timerArmed := true }
  else
    { st with isConnected := false, hasError := true }

/-- GatewayMCPClient.disconnect: clears the connected flag only; the
object (its generation) survives. -/
def gatewayDisconnect (st : GatewayState) : GatewayState :=
  { st with isConnected := false }

/-- The debounced auto-disconnect firing after the idle window
(scheduleAutoDisconnect): runs disconnect. -/
def timerFire (st : GatewayState) : GatewayState :=
  if st.timerArmed then { gatewayDisconnect st with timerArmed := false }
  else st

/-- Structured tool-call content as returned by GatewayMCPClient. -/
structure ToolCallContent where
  text : String
  isError : Bool
deriving DecidableEq, Repr

/-- GatewayMCPClient.callTool (lines 147-213): every failure path is
caught and returned as structured content with `isError := true`; a
success rearms the debounce and returns the result text.  The call
first ensures a connection via connect (whose outcome is `connectOk`)
and then performs the gateway request (`requestResult`). -/
def gatewayCallTool (st : GatewayState) (connectOk : Bool)
    (requestResult : Except String String) : GatewayState × ToolCallContent :=
  if st.hasError then
    (st, { text := "Gateway MCP Client is in an error state", isError := true })
  else
    let st1 := gatewayConnect st connectOk
    match requestResult with
    | Except.ok t => ({ st1 with timerArmed := true }, { text := t, isError := false })
    | Except.error e => (st1, { text := e, isError := true })

/-! Selector, modelled from the spec.  The python gateway that
implements automatic server selection is not among the sources (only
its API documentation is), so the algorithm is taken from the spec's
words: lower-case the prompt, score each descriptor by the number of
its routingKeywords occurring as substrings, highest nonzero score
wins, ties break to the first-registered descriptor, and the configured
default is returned when every score is zero. -/

/-- A registered tool server (registry metadata relevant to routing). -/
structure ServerDescriptor where
  serverId : String
  routingKeywords : List String
deriving DecidableEq, Repr

/-- Substring occurrence over character lists (needle occurs
contiguously in the haystack). -/
def containsSeq (needle : List Char) : List Char → Bool
  | [] => needle.isEmpty
  | c :: rest => needle.isPrefixOf (c :: rest) || containsSeq needle rest

/-- Modelled from the spec: match score of one descriptor against a
prompt — the count of routingKeywords occurring as substrings of the
lower-cased prompt. -/
def matchScore (prompt : String) (d : ServerDescriptor) : Nat :=
  (d.routingKeywords.filter
    (fun k => containsSeq k.toList (prompt.toList.map Char.toLower))).length

/-- Modelled from the spec: the best-scoring descriptor of a
registration-ordered list, or none when every score is zero; ties go to
the earlier descriptor. -/
def bestDesc (score : ServerDescriptor → Nat) :
    List ServerDescriptor → Option ServerDescriptor
  | [] => none
  | d :: rest =>
    if score d = 0 then bestDesc score rest
    else
      match bestDesc score rest with
      | none => some d
      | some b => if score d < score b then some b else some d

/-- Modelled from the spec: the selection algorithm — the configured
default descriptor when no descriptor scores above zero, the highest
(first-registered on ties) scorer otherwise. -/
def selectServer (registry : List ServerDescriptor)
    (defaultDesc : ServerDescriptor) (prompt : String) : ServerDescriptor :=
  match bestDesc (matchScore prompt) registry with
  | none => defaultDesc
  | some d => d

/-! Conversation store.  The repository functions embed
`chatRepository.createMessage` and `chatRepository.getMessagesByThreadId`
(drizzle repository source).  The database engine is not among the
sources; modelled from the spec: an append-only list of rows, insert
appends, and an order-by over `createdAt` that keeps arrival order among
equal keys (the spec guarantees per-thread appends are ordered by
arrival, not reordered). -/

/-- A chat_message row as inserted by createMessage. -/
structure MessageRow where
  id : String
  threadId : String
  role : String
  content : String
  createdAt : Nat
deriving DecidableEq, Repr

/-- chatRepository.createMessage: inserts one row with
`id = Date.now().toString()` and the database-assigned creation time
(`now`, milliseconds). -/
def createMessage (db : List MessageRow) (tid role content : String)
    (now : Nat) : List MessageRow :=
  db ++ [{ id := toString now, threadId := tid, role := role
           content := content, createdAt := now }]

/-- Stable insertion into a createdAt-sorted list. -/
def insertByCreatedAt (r : MessageRow) : List MessageRow → List MessageRow
  | [] => [r]
  | s :: rest =>
    if r.createdAt ≤ s.createdAt then r :: s :: rest
    else s :: insertByCreatedAt r rest

/-- Modelled from the spec: ORDER BY createdAt as a stable sort (equal
keys keep arrival order, per the store's append-ordering guarantee). -/
def orderByCreatedAt : List MessageRow → List MessageRow
  | [] => []
  | r :: rest => insertByCreatedAt r (orderByCreatedAt rest)

/-- chatRepository.getMessagesByThreadId: select the rows of a thread
ordered by createdAt. -/
def getMessagesByThreadId (db : List MessageRow) (tid : String) :
    List MessageRow :=
  orderByCreatedAt (db.filter (fun r => r.threadId = tid))

/-- Appending a batch of (role, content, time) messages to a thread by
repeated createMessage calls. -/
def appendMessages (db : List MessageRow) (tid : String) :
    List (String × String × Nat) → List MessageRow
  | [] => db
  | (role, content, now) :: rest =>
    appendMessages (createMessage db tid role content now) tid rest


/-! Helper lemmas. -/

theorem findEntry_mutateEntry (l : List (String × MCPClient)) (id : String)
    (f : MCPClient → MCPClient) :
    findEntry (mutateEntry l id f) id = (findEntry l id).map f := by
  induction l with
  | nil => rfl
  | cons p rest ih =>
    by_cases h : p.1 = id
    · simp [mutateEntry, findEntry, h]
    · simp only [mutateEntry, findEntry, List.map_cons, h, if_neg h, if_false]
      simpa [mutateEntry] using ih


/-! Claim C2: sessions and identities. -/

/-- C2 counterexample: the pool is one shared manager keyed by server id
alone, so the very same session stored under "browser" is returned to a
request from identity U1 and to a request from identity U2 — the claim
that a session created for one identity is never returned to another,
and that two identities obtain two independent sessions, is false. -/
theorem sessions_shared_across_identities :
    getClientFor "U2" demoPool "browser" = getClientFor "U1" demoPool "browser"
    ∧ (getClientFor "U2" demoPool "browser").isSome = true := by
  exact ⟨rfl, by decide⟩

/-- C2 amended: the manager is identity-blind — the session returned for
a server id and the server listing are the same for every identity, so a
session created while serving identity A is returned unchanged to
identity B. -/
theorem manager_identity_blind (u1 u2 : String) (st : ManagerState) (id : String) :
    getClientFor u1 st id = getClientFor u2 st id
    ∧ serversFor u1 st = serversFor u2 st :=
  ⟨rfl, rfl⟩

/-! Claim C9: shutdown cleanup. -/

/-- C9: cleanup empties the pool and issues a disconnect for every owned
session; since the disconnects run under Promise.allSettled, every
session's disconnect is attempted and settles no matter which outcomes
(`f`) are failures — one failure never suppresses another disconnect,
and afterwards the pool owns no sessions. -/
theorem cleanup_disconnects_every_session (st : ManagerState)
    (f : String → MCPClient → Bool) :
    (cleanup st f).1.clients = []
    ∧ (cleanup st f).2.map Prod.fst = st.clients.map Prod.fst
    ∧ (cleanup st f).2.length = st.clients.length := by
  refine ⟨rfl, ?_, ?_⟩ <;> simp [cleanup]

/-! Claim C10: failed re-add leaves a stale disconnected entry. -/

/-- C10: when addClient is called for an id that is already registered
and the new connection attempt fails, the call throws, yet the old
client — which addClient already disconnected — is still in the map, so
a subsequent getClient returns a disconnected, not-ready session. -/
theorem addClient_failure_leaves_stale_entry (st : ManagerState)
    (id name : String) (tools : List MCPToolInfo) (c : MCPClient)
    (h : findEntry st.clients id = some c) :
    (addClient st id name false tools).2 =
      Except.error ("Failed to connect to MCP server: " ++ name)
    ∧ getClient (addClient st id name false tools).1 id = some c.disconnect
    ∧ (c.disconnect).isReady = false := by
  refine ⟨?_, ?_, ?_⟩
  · simp [addClient, h]
  · simp [addClient, getClient, h, findEntry_mutateEntry]
  · simp [MCPClient.disconnect, MCPClient.isReady]

/-- Witness for C10 at a concrete pool: re-adding the "browser" client
with a failing connection throws and leaves the old client behind,
disconnected and not ready. -/
theorem addClient_failure_leaves_stale_entry_witness :
    (addClient demoPool "browser" "browser2" false []).2 =
      Except.error ("Failed to connect to MCP server: " ++ "browser2")
    ∧ getClient (addClient demoPool "browser" "browser2" false []).1 "browser" =
      some ((freshClient "browser" true
        [{ name := "screenshot", description := "take a screenshot" }] 0).disconnect)
    ∧ ((freshClient "browser" true
        [{ name := "screenshot", description := "take a screenshot" }] 0).disconnect).isReady
      = false :=
  addClient_failure_leaves_stale_entry demoPool "browser" "browser2" [] _ (by decide)

/-! Claim C3: persistence of the user turn. -/

/-- C3 counterexample: when the model call fails, the handler's catch
block answers with an error and the store is untouched — the user
message "hello" was never persisted, although the claim says the user
turn is appended before any model call and survives a model failure. -/
theorem user_turn_lost_on_model_failure :
    (chatPost [] (some "t1") ["hello"] (Except.error "model down")).1 = []
    ∧ (chatPost [] (some "t1") ["hello"] (Except.error "model down")).2 =
      Except.error "Failed to generate response" :=
  ⟨rfl, rfl⟩

/-- C3 amended: the user message is appended only inside the onFinish
callback, after the model call has succeeded and only when a threadId
was supplied; when the model call fails, the store is unchanged and no
message — the user turn included — is persisted. -/
theorem chatPost_persists_only_after_success (store : List StoredMessage)
    (threadId : Option String) (messages : List String) :
    (∀ e, (chatPost store threadId messages (Except.error e)).1 = store)
    ∧ (∀ r tid m, threadId = some tid → messages.getLast? = some m →
        (chatPost store threadId messages (Except.ok r)).1 =
          store ++ [{ threadId := tid, role := "user", content := m },
                    { threadId := tid, role := "assistant", content := r.text }]) := by
  constructor
  · intro e; rfl
  · intro r tid m ht hm
    subst ht
    simp [chatPost, hm]

/-- Witness for the amended C3 at concrete inputs: a failing model call
persists nothing; a successful one persists the user then the assistant
turn. -/
theorem chatPost_persists_only_after_success_witness :
    (chatPost [] (some "t1") ["hi"] (Except.error "down")).1 = []
    ∧ (chatPost [] (some "t1") ["hi"] (Except.ok { text := "answer" })).1 =
      [] ++ [{ threadId := "t1", role := "user", content := "hi" },
             { threadId := "t1", role := "assistant", content := "answer" }] :=
  ⟨(chatPost_persists_only_after_success [] (some "t1") ["hi"]).1 "down",
   (chatPost_persists_only_after_success [] (some "t1") ["hi"]).2
     { text := "answer" } "t1" "hi" rfl rfl⟩


/-! Claim C5: invoke preconditions. -/

/-- A ready demonstration client whose only discovered tool is
"screenshot". -/
def demoReadyClient : MCPClient :=
  freshClient "browser" true
    [{ name := "screenshot", description := "take a screenshot" }] 0

/-- C5 counterexample: a ready client asked for a tool name that is
absent from its toolInfo does not fail with an UnknownTool error — the
request is sent over the transport anyway and the transport's answer is
returned, because callTool never consults the descriptors. -/
theorem unknown_tool_not_rejected :
    demoReadyClient.isReady = true
    ∧ (demoReadyClient.toolInfo.map MCPToolInfo.name).contains "no-such-tool" = false
    ∧ demoReadyClient.callTool "no-such-tool" (Except.ok "transport answer") =
      (CallOutcome.ok "transport answer", true) := by
  decide

/-- C5 amended: callTool guards only on the connection — when the client
object is absent or not connected it throws the not-connected error and
nothing is sent; otherwise the request is always sent over the
transport, whatever the tool name, and the transport's success is
returned while its error is rethrown. -/
theorem callTool_connection_gate (c : MCPClient) (tn : String)
    (tr : Except String String) :
    ((c.hasClient && c.isConnected) = false →
      c.callTool tn tr =
        (CallOutcome.thrown ("MCP client not connected: " ++ c.name), false))
    ∧ ((c.hasClient && c.isConnected) = true →
      (c.callTool tn tr).2 = true
      ∧ (c.callTool tn tr).1 = (match tr with
          | Except.ok t => CallOutcome.ok t
          | Except.error e => CallOutcome.thrown e)) := by
  constructor
  · intro h; simp [MCPClient.callTool, h]
  · intro h; cases tr <;> simp [MCPClient.callTool, h]

/-- Witness for the amended C5: a never-connected client throws the
not-connected error without sending, and a ready client's transport
error is rethrown after the request was sent. -/
theorem callTool_connection_gate_witness :
    (freshClient "x" false [] 5).callTool "t" (Except.ok "r") =
      (CallOutcome.thrown ("MCP client not connected: " ++ "x"), false)
    ∧ (demoReadyClient.callTool "t" (Except.error "boom")).2 = true
    ∧ (demoReadyClient.callTool "t" (Except.error "boom")).1 =
      CallOutcome.thrown "boom" := by
  refine ⟨(callTool_connection_gate (freshClient "x" false [] 5) "t"
    (Except.ok "r")).1 (by decide), ?_⟩
  have h := (callTool_connection_gate demoReadyClient "t"
    (Except.error "boom")).2 (by decide)
  exact ⟨h.1, h.2⟩

/-! Claim C6: failed tool executions as content versus exceptions. -/

/-- C6 counterexample: in the chat-api client, a tool invocation whose
underlying execution fails is rethrown to the caller as an exception —
not returned as a structured error result — refuting the claim for this
cited implementation. -/
theorem tool_error_rethrown_in_chat_api :
    demoReadyClient.callTool "screenshot" (Except.error "boom") =
      (CallOutcome.thrown "boom", true) := by
  decide

/-- C6 amended: the gateway client returns every tool failure as
structured content with isError set (never throwing), while the
chat-api MCPClient rethrows the underlying transport error to its
caller. -/
theorem tool_failure_surfacing (st : GatewayState) (ok : Bool) (e : String)
    (c : MCPClient) (tn : String)
    (hc : (c.hasClient && c.isConnected) = true) :
    (gatewayCallTool st ok (Except.error e)).2.isError = true
    ∧ c.callTool tn (Except.error e) = (CallOutcome.thrown e, true) := by
  constructor
  · by_cases h : st.hasError <;> simp [gatewayCallTool, h]
  · simp [MCPClient.callTool, hc]

/-- Witness for the amended C6 at concrete inputs. -/
theorem tool_failure_surfacing_witness :
    (gatewayCallTool (GatewayState.fresh 0) true (Except.error "down")).2.isError = true
    ∧ demoReadyClient.callTool "screenshot" (Except.error "down") =
      (CallOutcome.thrown "down", true) :=
  tool_failure_surfacing (GatewayState.fresh 0) true "down" demoReadyClient
    "screenshot" (by decide)

/-! Claim C1: connect coalescing under concurrency. -/

theorem stepAction_connectCount (st : ManagerState) (a : PoolAction) :
    (stepAction st a).connectCount =
      st.connectCount + (match a with
        | PoolAction.disconnectExisting _ => 0
        | PoolAction.connectAndSet _ _ _ _ => 1) := by
  cases a with
  | disconnectExisting id =>
    cases h : findEntry st.clients id
    all_goals simp [stepAction, h]
  | connectAndSet id n ok t =>
    by_cases h : ok = true
    all_goals simp [stepAction, h]

theorem runActions_connectCount (acts : List PoolAction) :
    ∀ st : ManagerState,
      (runActions st acts).connectCount = st.connectCount + countConnects acts := by
  induction acts with
  | nil => intro st; simp [runActions, countConnects]
  | cons a rest ih =>
    intro st
    rw [runActions, ih, stepAction_connectCount]
    cases a
    all_goals simp [countConnects]
    all_goals omega

theorem merge_countConnects {xs ys zs : List PoolAction}
    (h : Merge xs ys zs) :
    countConnects zs = countConnects xs + countConnects ys := by
  induction h with
  | nil => rfl
  | left h ih =>
    rename_i a _ _ _
    cases a
    all_goals simp [countConnects, ih]
    all_goals omega
  | right h ih =>
    rename_i a _ _ _
    cases a
    all_goals simp [countConnects, ih]
    all_goals omega

/-- C1 counterexample: two concurrent addClient calls for the same key
"browser" (here, the interleaving that runs them back to back) issue two
connect invocations, not the single coalesced one the claim demands —
the manager has no in-flight coalescing at all. -/
theorem concurrent_connect_not_coalesced :
    (runActions ManagerState.empty
      (addClientProg "browser" "browser" true []
        ++ addClientProg "browser" "browser" true [])).connectCount = 2
    ∧ (runActions ManagerState.empty
      (addClientProg "browser" "browser" true []
        ++ addClientProg "browser" "browser" true [])).connectCount ≠ 1 := by
  decide

/-- C1 amended: concurrent addClient calls are never coalesced — every
interleaving of two addClient calls (same key or not, either outcome)
issues exactly two connect invocations, one per call. -/
theorem concurrent_addClient_two_connects (st : ManagerState)
    (i1 n1 i2 n2 : String) (ok1 ok2 : Bool) (t1 t2 : List MCPToolInfo)
    (zs : List PoolAction)
    (h : Merge (addClientProg i1 n1 ok1 t1) (addClientProg i2 n2 ok2 t2) zs) :
    (runActions st zs).connectCount = st.connectCount + 2 := by
  rw [runActions_connectCount, merge_countConnects h]
  simp [addClientProg, countConnects]

/-- Witness for the amended C1: a concrete interleaving of two
addClient calls for the key "browser" performs exactly two connects. -/
theorem concurrent_addClient_two_connects_witness :
    (runActions ManagerState.empty
      (addClientProg "browser" "browser" true []
        ++ addClientProg "browser" "browser" true [])).connectCount =
      ManagerState.empty.connectCount + 2 :=
  concurrent_addClient_two_connects ManagerState.empty
    "browser" "browser" "browser" "browser" true true [] [] _
    (Merge.left (Merge.left (Merge.right (Merge.right Merge.nil))))

/-! Claim C7: idle eviction. -/

/-- A gateway client that connected successfully (auto-disconnect
armed). -/
def demoGateway : GatewayState := gatewayConnect (GatewayState.fresh 0) true

/-- C7 counterexample: after the idle auto-disconnect fires, the very
same client object (same generation, no replacement) is reconnected and
successfully serves the next tool call — the session is neither evicted
nor permanently closed, and no fresh session is created. -/
theorem idle_disconnect_reuses_same_session :
    (timerFire demoGateway).isConnected = false
    ∧ (timerFire demoGateway).generation = demoGateway.generation
    ∧ ((gatewayCallTool (timerFire demoGateway) true
        (Except.ok "page loaded")).1).isConnected = true
    ∧ ((gatewayCallTool (timerFire demoGateway) true
        (Except.ok "page loaded")).1).generation = demoGateway.generation
    ∧ ((gatewayCallTool (timerFire demoGateway) true
        (Except.ok "page loaded")).2).isError = false := by
  decide

/-- C7 amended: the chat-api manager performs no idle eviction — its
configured autoDisconnectSeconds never influences the client map (shown
for addClient and cleanup) — and the gateway client's debounced idle
disconnect only clears the connected flag of the same object, which is
reconnected and reused by the next call rather than replaced by a fresh
session. -/
theorem no_idle_eviction (st : ManagerState) (w : Nat) (id name : String)
    (ok : Bool) (tools : List MCPToolInfo) (f : String → MCPClient → Bool)
    (gst : GatewayState) (r : String)
    (hga : gst.timerArmed = true) (hge : gst.hasError = false) :
    ((addClient { st with autoDisconnectSeconds := w } id name ok tools).1).clients
      = ((addClient st id name ok tools).1).clients
    ∧ (cleanup { st with autoDisconnectSeconds := w } f).2 = (cleanup st f).2
    ∧ (timerFire gst).isConnected = false
    ∧ (timerFire gst).generation = gst.generation
    ∧ ((gatewayCallTool (timerFire gst) true (Except.ok r)).1).generation
      = gst.generation
    ∧ ((gatewayCallTool (timerFire gst) true (Except.ok r)).1).isConnected
      = true := by
  refine ⟨?_, rfl, ?_, ?_, ?_, ?_⟩
  · cases h : findEntry st.clients id <;> cases ok <;>
      simp [addClient, h]
  · simp [timerFire, hga, gatewayDisconnect]
  · simp [timerFire, hga, gatewayDisconnect]
  · simp [gatewayCallTool, timerFire, hga, gatewayDisconnect, gatewayConnect, hge]
  · simp [gatewayCallTool, timerFire, hga, gatewayDisconnect, gatewayConnect, hge]

/-- Witness for the amended C7 at the concrete connected gateway
client. -/
theorem no_idle_eviction_witness :
    ((addClient { ManagerState.empty with autoDisconnectSeconds := 7 }
        "a" "a" true []).1).clients
      = ((addClient ManagerState.empty "a" "a" true []).1).clients
    ∧ (cleanup { ManagerState.empty with autoDisconnectSeconds := 7 }
        (fun _ _ => true)).2
      = (cleanup ManagerState.empty (fun _ _ => true)).2
    ∧ (timerFire demoGateway).isConnected = false
    ∧ (timerFire demoGateway).generation = demoGateway.generation
    ∧ ((gatewayCallTool (timerFire demoGateway) true (Except.ok "r")).1).generation
      = demoGateway.generation
    ∧ ((gatewayCallTool (timerFire demoGateway) true (Except.ok "r")).1).isConnected
      = true :=
  no_idle_eviction ManagerState.empty 7 "a" "a" true [] (fun _ _ => true)
    demoGateway "r" (by decide) (by decide)


/-! Claim C8: append/read round trip of the conversation store. -/

/-- The row createMessage builds for one (role, content, time)
message. -/
def rowOf (tid : String) (m : String × String × Nat) : MessageRow :=
  { id := toString m.2.2, threadId := tid, role := m.1
    content := m.2.1, createdAt := m.2.2 }

theorem appendMessages_eq (tid : String) (msgs : List (String × String × Nat)) :
    ∀ db : List MessageRow,
      appendMessages db tid msgs = db ++ msgs.map (rowOf tid) := by
  induction msgs with
  | nil => intro db; simp [appendMessages]
  | cons m rest ih =>
    intro db
    obtain ⟨role, content, now⟩ := m
    simp [appendMessages, createMessage, ih, rowOf]

theorem orderByCreatedAt_sorted_id (l : List MessageRow)
    (h : List.Chain' (fun a b => a.createdAt ≤ b.createdAt) l) :
    orderByCreatedAt l = l := by
  induction l with
  | nil => rfl
  | cons r rest ih =>
    rw [orderByCreatedAt, ih h.tail]
    cases rest with
    | nil => rfl
    | cons s rest2 =>
      have hrs : r.createdAt ≤ s.createdAt := (List.chain'_cons.mp h).1
      simp [insertByCreatedAt, hrs]

/-- C8: appending N messages to a thread through createMessage and
reading them back through getMessagesByThreadId yields exactly those N
rows in append order — provided no earlier row of the thread is present
and the store-assigned creation times are nondecreasing (which is how
the database clock behaves across sequential inserts). -/
theorem append_read_roundtrip (db0 : List MessageRow) (tid : String)
    (msgs : List (String × String × Nat))
    (h0 : ∀ r ∈ db0, r.threadId ≠ tid)
    (hmono : List.Chain' (fun a b : String × String × Nat => a.2.2 ≤ b.2.2) msgs) :
    getMessagesByThreadId (appendMessages db0 tid msgs) tid = msgs.map (rowOf tid)
    ∧ (getMessagesByThreadId (appendMessages db0 tid msgs) tid).length
      = msgs.length := by
  have h1 : appendMessages db0 tid msgs = db0 ++ msgs.map (rowOf tid) :=
    appendMessages_eq tid msgs db0
  have hf0 : db0.filter (fun r => r.threadId = tid) = [] := by
    rw [List.filter_eq_nil_iff]
    intro r hr
    simpa using h0 r hr
  have hf1 : (msgs.map (rowOf tid)).filter (fun r => r.threadId = tid)
      = msgs.map (rowOf tid) := by
    rw [List.filter_eq_self]
    intro r hr
    obtain ⟨m, _, rfl⟩ := List.mem_map.mp hr
    simp [rowOf]
  have hchain : List.Chain' (fun a b : MessageRow => a.createdAt ≤ b.createdAt)
      (msgs.map (rowOf tid)) := by
    rw [List.chain'_map]
    exact hmono
  have hread : getMessagesByThreadId (appendMessages db0 tid msgs) tid
      = msgs.map (rowOf tid) := by
    rw [getMessagesByThreadId, h1, List.filter_append, hf0, hf1,
      List.nil_append, orderByCreatedAt_sorted_id _ hchain]
  exact ⟨hread, by rw [hread, List.length_map]⟩

/-- Witness for C8: two concrete messages appended to thread "t1" read
back as the same two rows in order. -/
theorem append_read_roundtrip_witness :
    getMessagesByThreadId (appendMessages [] "t1"
      [("user", "hi", 100), ("assistant", "yo", 101)]) "t1" =
      [("user", "hi", 100), ("assistant", "yo", 101)].map (rowOf "t1")
    ∧ (getMessagesByThreadId (appendMessages [] "t1"
      [("user", "hi", 100), ("assistant", "yo", 101)]) "t1").length =
      ([("user", "hi", 100), ("assistant", "yo", 101)] :
        List (String × String × Nat)).length :=
  append_read_roundtrip [] "t1" [("user", "hi", 100), ("assistant", "yo", 101)]
    (by simp) (by norm_num [List.chain'_cons])

/-! Claim C4: the selection algorithm (modelled from the spec; the
python gateway implementing it is not among the sources). -/

theorem bestDesc_eq_none_iff (score : ServerDescriptor → Nat)
    (l : List ServerDescriptor) :
    bestDesc score l = none ↔ ∀ d ∈ l, score d = 0 := by
  induction l with
  | nil => simp [bestDesc]
  | cons d rest ih =>
    by_cases h : score d = 0
    · simp [bestDesc, h, ih, List.forall_mem_cons]
    · cases hb : bestDesc score rest with
      | none => simp [bestDesc, h, hb, List.forall_mem_cons]
      | some b =>
        by_cases hc : score d < score b
        all_goals simp [bestDesc, h, hb, hc, List.forall_mem_cons]

theorem bestDesc_some_spec (score : ServerDescriptor → Nat) :
    ∀ (l : List ServerDescriptor) (r : ServerDescriptor),
      bestDesc score l = some r →
        0 < score r
        ∧ ∃ l₁ l₂, l = l₁ ++ r :: l₂
          ∧ (∀ d ∈ l, score d ≤ score r)
          ∧ (∀ d ∈ l₁, score d < score r) := by
  intro l
  induction l with
  | nil => intro r h; simp [bestDesc] at h
  | cons d rest ih =>
    intro r h
    by_cases hd : score d = 0
    · rw [bestDesc, if_pos hd] at h
      obtain ⟨hpos, l₁, l₂, heq, hmax, hfirst⟩ := ih r h
      refine ⟨hpos, d :: l₁, l₂, by rw [heq]; rfl, ?_, ?_⟩
      · intro x hx
        rcases List.mem_cons.mp hx with hx | hx
        · subst hx; omega
        · exact hmax x hx
      · intro x hx
        rcases List.mem_cons.mp hx with hx | hx
        · subst hx; omega
        · exact hfirst x hx
    · rw [bestDesc, if_neg hd] at h
      cases hb : bestDesc score rest with
      | none =>
        rw [hb] at h
        obtain rfl : d = r := by injection h
        have hall : ∀ x ∈ rest, score x = 0 :=
          (bestDesc_eq_none_iff score rest).mp hb
        refine ⟨Nat.pos_of_ne_zero hd, [], rest, rfl, ?_, by simp⟩
        intro x hx
        rcases List.mem_cons.mp hx with hx | hx
        · subst hx; exact Nat.le_refl _
        · rw [hall x hx]; exact Nat.zero_le _
      | some b =>
        rw [hb] at h
        have h2 : (if score d < score b then some b else some d) = some r := h
        obtain ⟨hbpos, l₁, l₂, heq, hmax, hfirst⟩ := ih b hb
        by_cases hc : score d < score b
        · rw [if_pos hc] at h2
          obtain rfl : b = r := by injection h2
          refine ⟨hbpos, d :: l₁, l₂, by rw [heq]; rfl, ?_, ?_⟩
          · intro x hx
            rcases List.mem_cons.mp hx with hx | hx
            · subst hx; exact Nat.le_of_lt hc
            · exact hmax x hx
          · intro x hx
            rcases List.mem_cons.mp hx with hx | hx
            · subst hx; exact hc
            · exact hfirst x hx
        · rw [if_neg hc] at h2
          obtain rfl : d = r := by injection h2
          refine ⟨Nat.pos_of_ne_zero hd, [], rest, rfl, ?_, by simp⟩
          intro x hx
          rcases List.mem_cons.mp hx with hx | hx
          · subst hx; exact Nat.le_refl _
          · exact Nat.le_trans (hmax x hx) (Nat.le_of_not_lt hc)

/-- C4: the Selector lower-cases the prompt, scores each descriptor as
the count of its routingKeywords occurring as substrings, and returns
the configured default when every descriptor scores zero; otherwise it
returns a registered descriptor of nonzero, maximal score that is the
first-registered among the maximal ones (every earlier descriptor
scores strictly less). -/
theorem selectServer_spec (registry : List ServerDescriptor)
    (dflt : ServerDescriptor) (prompt : String) :
    ((∀ d ∈ registry, matchScore prompt d = 0) →
      selectServer registry dflt prompt = dflt)
    ∧ (∀ d₀ ∈ registry, 0 < matchScore prompt d₀ →
      ∃ l₁ l₂,
        registry = l₁ ++ selectServer registry dflt prompt :: l₂
        ∧ 0 < matchScore prompt (selectServer registry dflt prompt)
        ∧ (∀ d ∈ registry,
            matchScore prompt d
              ≤ matchScore prompt (selectServer registry dflt prompt))
        ∧ (∀ d ∈ l₁,
            matchScore prompt d
              < matchScore prompt (selectServer registry dflt prompt))) := by
  constructor
  · intro hall
    rw [selectServer, (bestDesc_eq_none_iff (matchScore prompt) registry).mpr hall]
  · intro d₀ hmem hpos
    cases hb : bestDesc (matchScore prompt) registry with
    | none =>
      exact absurd ((bestDesc_eq_none_iff (matchScore prompt) registry).mp hb d₀ hmem)
        (by omega)
    | some r =>
      obtain ⟨hrpos, l₁, l₂, heq, hmax, hfirst⟩ :=
        bestDesc_some_spec (matchScore prompt) registry r hb
      have hsel : selectServer registry dflt prompt = r := by
        rw [selectServer, hb]
      rw [hsel]
      exact ⟨l₁, l₂, heq, hrpos, hmax, hfirst⟩

/-- The spec scenario registry: apollo then browser, with a playwright
default. -/
def apolloDesc : ServerDescriptor :=
  { serverId := "apollo", routingKeywords := ["astronaut", "space"] }

def browserDesc : ServerDescriptor :=
  { serverId := "browser", routingKeywords := ["screenshot", "navigate"] }

def playwrightDesc : ServerDescriptor :=
  { serverId := "playwright", routingKeywords := [] }

/-- Witness for C4 at the spec scenario: a prompt matching no keyword
selects the default descriptor, and the astronaut prompt gives apollo a
positive score, so the selection branch applies and produces a maximal
first-registered winner. -/
theorem selectServer_spec_witness :
    selectServer [apolloDesc, browserDesc] playwrightDesc "What is the weather?"
      = playwrightDesc
    ∧ ∃ l₁ l₂,
        [apolloDesc, browserDesc] =
          l₁ ++ selectServer [apolloDesc, browserDesc] playwrightDesc
            "Who are the astronauts in space?" :: l₂
        ∧ 0 < matchScore "Who are the astronauts in space?"
            (selectServer [apolloDesc, browserDesc] playwrightDesc
              "Who are the astronauts in space?")
        ∧ (∀ d ∈ [apolloDesc, browserDesc],
            matchScore "Who are the astronauts in space?" d
              ≤ matchScore "Who are the astronauts in space?"
                (selectServer [apolloDesc, browserDesc] playwrightDesc
                  "Who are the astronauts in space?"))
        ∧ (∀ d ∈ l₁,
            matchScore "Who are the astronauts in space?" d
              < matchScore "Who are the astronauts in space?"
                (selectServer [apolloDesc, browserDesc] playwrightDesc
                  "Who are the astronauts in space?")) :=
  ⟨(selectServer_spec [apolloDesc, browserDesc] playwrightDesc
      "What is the weather?").1 (by decide),
   (selectServer_spec [apolloDesc, browserDesc] playwrightDesc
      "Who are the astronauts in space?").2 apolloDesc (by simp)
      (by decide)⟩

end McpChat
